import Mathlib

/-!
Verification development for the scoring pipeline of src/app.py
(MatricResults2025).

The core of the program is a pandas feature-engineering pipeline over a
table of school records.  We embed it shallowly:

* A numeric cell (after the code coerces columns at lines 35-38 with
  pandas to_numeric using coercion of errors, so that missing or
  non-numeric cells become NaN) is modelled as an Option over the
  rationals: none stands for NaN, some q for a finite float value.
* Arithmetic on derived columns follows float semantics on the extended
  line: a dedicated type PVal with NaN, plus and minus infinity and
  finite values.  Division of a positive value by zero yields plus
  infinity, of zero by zero yields NaN, exactly as in pandas/numpy;
  fillna replaces only NaN; numpy clip sends plus infinity to the upper
  bound, minus infinity to the lower bound and propagates NaN.
* load_data keeps a row only when School_Name, Percent_Achieved and
  Province are all present (the dropna call at line 40).
* perf_band, risk_label and the Expected_Band lambda translate the
  threshold chains at lines 48-52, 56-58 and 77-80; comparisons against
  NaN are false, as for floats.
-/

/-- Float-like value arising in the derived pandas columns: NaN, the two
infinities, or a finite value (modelled as a rational). -/
inductive PVal where
  | nan : PVal
  | pinf : PVal
  | ninf : PVal
  | fin : ℚ → PVal
deriving DecidableEq, Repr

namespace PVal

/-- Negation with float semantics. -/
def neg : PVal → PVal
  | nan => nan
  | pinf => ninf
  | ninf => pinf
  | fin q => fin (-q)

/-- Addition with float semantics: NaN absorbs, opposite infinities give
NaN, an infinity absorbs finite values. -/
def add : PVal → PVal → PVal
  | nan, _ => nan
  | _, nan => nan
  | pinf, ninf => nan
  | ninf, pinf => nan
  | pinf, _ => pinf
  | _, pinf => pinf
  | ninf, _ => ninf
  | _, ninf => ninf
  | fin a, fin b => fin (a + b)

/-- Subtraction with float semantics. -/
def sub (a b : PVal) : PVal := a.add b.neg

/-- Multiplication with float semantics: NaN absorbs, infinity times zero
is NaN, otherwise signs combine. -/
def mul : PVal → PVal → PVal
  | nan, _ => nan
  | _, nan => nan
  | pinf, pinf => pinf
  | pinf, ninf => ninf
  | ninf, pinf => ninf
  | ninf, ninf => pinf
  | pinf, fin b => if 0 < b then pinf else if b < 0 then ninf else nan
  | fin a, pinf => if 0 < a then pinf else if a < 0 then ninf else nan
  | ninf, fin b => if 0 < b then ninf else if b < 0 then pinf else nan
  | fin a, ninf => if 0 < a then ninf else if a < 0 then pinf else nan
  | fin a, fin b => fin (a * b)

/-- Absolute value with float semantics. -/
def abs : PVal → PVal
  | nan => nan
  | pinf => pinf
  | ninf => pinf
  | fin q => fin |q|

/-- pandas fillna(0): replaces NaN by 0 and leaves every other value,
infinities included, unchanged (line 61 of src/app.py). -/
def fillna0 : PVal → PVal
  | nan => fin 0
  | v => v

/-- numpy clip with finite bounds: NaN propagates, plus infinity clips to
the upper bound, minus infinity to the lower bound, a finite value is
saturated into the interval. -/
def clip (lo hi : ℚ) : PVal → PVal
  | nan => nan
  | pinf => fin hi
  | ninf => fin lo
  | fin q => fin (min hi (max lo q))

end PVal

/-- Float division of two numeric cells as pandas performs it at line 60:
a NaN operand gives NaN; division by zero gives plus or minus infinity
according to the sign of the numerator and NaN for zero over zero. -/
def odiv : Option ℚ → Option ℚ → PVal
  | some a, some b =>
      if b ≠ 0 then PVal.fin (a / b)
      else if 0 < a then PVal.pinf
      else if a < 0 then PVal.ninf
      else PVal.nan
  | _, _ => PVal.nan

/-- Numeric cell promoted to a float-like value: NaN for a missing cell. -/
def ofCell : Option ℚ → PVal
  | some q => PVal.fin q
  | none => PVal.nan

/-- An input row after the column renaming and numeric coercion of
load_data (lines 24-38 of src/app.py).  A none in a numeric field is a
cell that was missing or non-numeric (coerced to NaN); a none in a string
field is a missing cell. -/
structure RawRecord where
  School_Name : Option String
  Quintile : Option ℚ
  Total_Wrote : Option ℚ
  Total_Achieved : Option ℚ
  Percent_Achieved : Option ℚ
  District : Option String
  Province : Option String
deriving DecidableEq, Repr

/-- The dropna step of load_data (line 40 of src/app.py): a row is kept
exactly when School_Name, Percent_Achieved and Province are all present. -/
def load_data (rows : List RawRecord) : List RawRecord :=
  rows.filter fun r =>
    r.School_Name.isSome && r.Percent_Achieved.isSome && r.Province.isSome

/-- perf_band (lines 48-52 of src/app.py), applied to a Percent_Achieved
cell; every comparison against NaN is false, so a NaN falls through to
the final return. -/
def perf_band : Option ℚ → String
  | some x =>
      if 90 ≤ x then "Excellent"
      else if 75 ≤ x then "Good"
      else if 50 ≤ x then "Average"
      else "Poor"
  | none => "Poor"

/-- The Expected_Band lambda (lines 56-58 of src/app.py), applied to a
Quintile cell; comparisons against NaN are false, so a NaN falls through
to the final branch. -/
def expected_band : Option ℚ → String
  | some q =>
      if 4 ≤ q then "Excellent"
      else if q = 3 then "Good"
      else "Average"
  | none => "Average"

/-- risk_label (lines 77-80 of src/app.py), applied to a Percent_Achieved
cell; comparisons against NaN are false. -/
def risk_label : Option ℚ → String
  | some p =>
      if p < 50 then "High Risk"
      else if p < 70 then "Medium Risk"
      else "Low Risk"
  | none => "Low Risk"

/-- A row together with all derived columns computed by the feature
engineering section (lines 48-93 of src/app.py). -/
structure ScoredRecord where
  base : RawRecord
  Actual_Band : String
  Expected_Band : String
  Efficiency_Score : PVal
  Equity_Gap : PVal
  Growth_Index : PVal
  Stability_Index : PVal
  Risk_Category : String
  Projected_Pass_Rate_2026 : PVal
  Intervention_Priority : PVal
deriving DecidableEq, Repr

/-- The per-row feature engineering of lines 48-93 of src/app.py:
Actual_Band from Percent_Achieved, Expected_Band from Quintile,
Efficiency_Score as Total_Achieved over Total_Wrote with fillna(0),
Equity_Gap, Growth_Index, Stability_Index clipped into [0, 100],
Risk_Category, Projected_Pass_Rate_2026 clipped into [30, 100] and
Intervention_Priority.  The float constants 0.6, 0.4, 0.15, 0.5, 0.3
and 0.2 are the rationals 3/5, 2/5, 3/20, 1/2, 3/10 and 1/5. -/
def score (r : RawRecord) : ScoredRecord :=
  let eff := (odiv r.Total_Achieved r.Total_Wrote).fillna0
  let gap := (ofCell r.Percent_Achieved).sub
    ((ofCell r.Quintile).mul (PVal.fin 15))
  let growth := ((ofCell r.Percent_Achieved).mul (PVal.fin (3/5))).add
    ((eff.mul (PVal.fin 100)).mul (PVal.fin (2/5)))
  let stab := (eff.mul (PVal.fin 100)).clip 0 100
  { base := r
    Actual_Band := perf_band r.Percent_Achieved
    Expected_Band := expected_band r.Quintile
    Efficiency_Score := eff
    Equity_Gap := gap
    Growth_Index := growth
    Stability_Index := stab
    Risk_Category := risk_label r.Percent_Achieved
    Projected_Pass_Rate_2026 :=
      ((ofCell r.Percent_Achieved).add
        ((growth.sub (PVal.fin 70)).mul (PVal.fin (3/20)))).clip 30 100
    Intervention_Priority :=
      (((PVal.fin 100).sub (ofCell r.Percent_Achieved)).mul
        (PVal.fin (1/2))).add
        ((gap.abs.mul (PVal.fin (3/10))).add
          (((PVal.fin 100).sub stab).mul (PVal.fin (1/5)))) }

/-- The whole core pipeline: load and clean the rows, then derive every
feature column row by row. -/
def pipeline (rows : List RawRecord) : List ScoredRecord :=
  (load_data rows).map score

/-- Modelled from the spec: the investment-group classifier of section
4.1 is not present in src/app.py (only the band, risk and index code is);
the rules are taken verbatim from the spec, evaluated in strict priority
order with the first match winning. -/
def investment_group (quintile pass_rate : ℚ) : String :=
  if quintile ≤ 2 ∧ 80 ≤ pass_rate then "A"
  else if quintile = 3 ∧ 75 ≤ pass_rate then "B"
  else if 60 ≤ pass_rate then "C"
  else "D"

/-! ## Claim theorems -/

/-- C1: for every valid record the classifier assigns exactly one
investment group drawn from A, B, C, D, by the priority-ordered rules
evaluated first-match-wins: quintile at most 2 with pass rate at least 80
gives A; otherwise quintile 3 with pass rate at least 75 gives B;
otherwise pass rate at least 60 gives C; otherwise D. -/
theorem C1_investment_group_rules (q p : ℚ) :
    (investment_group q p = "A" ∨ investment_group q p = "B" ∨
      investment_group q p = "C" ∨ investment_group q p = "D")
    ∧ (q ≤ 2 ∧ 80 ≤ p → investment_group q p = "A")
    ∧ (¬(q ≤ 2 ∧ 80 ≤ p) → q = 3 ∧ 75 ≤ p → investment_group q p = "B")
    ∧ (¬(q ≤ 2 ∧ 80 ≤ p) → ¬(q = 3 ∧ 75 ≤ p) → 60 ≤ p →
        investment_group q p = "C")
    ∧ (¬(q ≤ 2 ∧ 80 ≤ p) → ¬(q = 3 ∧ 75 ≤ p) → p < 60 →
        investment_group q p = "D") := by
  unfold investment_group
  split_ifs with h1 h2 h3
  · exact ⟨Or.inl rfl, fun _ => rfl, fun h _ => absurd h1 h,
      fun h _ _ => absurd h1 h, fun h _ _ => absurd h1 h⟩
  · exact ⟨Or.inr (Or.inl rfl), fun h => absurd h h1, fun _ _ => rfl,
      fun _ h _ => absurd h2 h, fun _ h _ => absurd h2 h⟩
  · exact ⟨Or.inr (Or.inr (Or.inl rfl)), fun h => absurd h h1,
      fun _ h => absurd h h2, fun _ _ _ => rfl,
      fun _ _ h => absurd h3 (not_le.mpr h)⟩
  · exact ⟨Or.inr (Or.inr (Or.inr rfl)), fun h => absurd h h1,
      fun _ h => absurd h h2, fun _ _ h => absurd h h3,
      fun _ _ _ => rfl⟩

/-- Witness for C1 at quintile 1, pass rate 85: group A. -/
theorem C1_witness : investment_group 1 85 = "A" :=
  (C1_investment_group_rules 1 85).2.1 (by norm_num)

/-- C6: the actual band is determined solely by Percent_Achieved with the
highest qualifying threshold winning: at least 90 gives Excellent, else
at least 75 gives Good, else at least 50 gives Average, else Poor. -/
theorem C6_actual_band_thresholds (p : ℚ) :
    (90 ≤ p → perf_band (some p) = "Excellent")
    ∧ (75 ≤ p → p < 90 → perf_band (some p) = "Good")
    ∧ (50 ≤ p → p < 75 → perf_band (some p) = "Average")
    ∧ (p < 50 → perf_band (some p) = "Poor") := by
  simp only [perf_band]
  split_ifs with h1 h2 h3
  · exact ⟨fun _ => rfl, fun _ h => absurd h1 (not_le.mpr h),
      fun _ h => absurd h1 (not_le.mpr (h.trans (by norm_num))),
      fun h => absurd h1 (not_le.mpr (h.trans (by norm_num)))⟩
  · exact ⟨fun h => absurd h h1, fun _ _ => rfl,
      fun _ h => absurd h2 (not_le.mpr h),
      fun h => absurd h2 (not_le.mpr (h.trans (by norm_num)))⟩
  · exact ⟨fun h => absurd h h1, fun h _ => absurd h h2, fun _ _ => rfl,
      fun h => absurd h3 (not_le.mpr h)⟩
  · exact ⟨fun h => absurd h h1, fun h _ => absurd h h2,
      fun h _ => absurd h h3, fun _ => rfl⟩

/-- Witness for C6 at Percent_Achieved 85: band Good. -/
theorem C6_witness : perf_band (some 85) = "Good" :=
  (C6_actual_band_thresholds 85).2.1 (by norm_num) (by norm_num)

/-- C7: the risk category is determined solely by Percent_Achieved:
below 50 gives High Risk, else below 70 gives Medium Risk, else
Low Risk. -/
theorem C7_risk_thresholds (p : ℚ) :
    (p < 50 → risk_label (some p) = "High Risk")
    ∧ (50 ≤ p → p < 70 → risk_label (some p) = "Medium Risk")
    ∧ (70 ≤ p → risk_label (some p) = "Low Risk") := by
  simp only [risk_label]
  split_ifs with h1 h2
  · exact ⟨fun _ => rfl, fun h _ => absurd h1 (not_lt.mpr h),
      fun h => absurd h1 (not_lt.mpr (le_trans (by norm_num) h))⟩
  · exact ⟨fun h => absurd h h1, fun _ _ => rfl,
      fun h => absurd h2 (not_lt.mpr h)⟩
  · exact ⟨fun h => absurd h h1, fun _ h => absurd h h2, fun _ => rfl⟩

/-- Witness for C7 at Percent_Achieved 40: High Risk. -/
theorem C7_witness : risk_label (some 40) = "High Risk" :=
  (C7_risk_thresholds 40).1 (by norm_num)

/-- C9: risk category High Risk holds exactly when the actual band is
Poor (both are the condition Percent_Achieved below 50), and a
Percent_Achieved of at least 75 (band Good or Excellent) forces risk
category Low Risk. -/
theorem C9_risk_band_relation (p : ℚ) :
    (risk_label (some p) = "High Risk" ↔ perf_band (some p) = "Poor")
    ∧ (75 ≤ p → risk_label (some p) = "Low Risk") := by
  simp only [risk_label, perf_band]
  constructor
  · by_cases h : p < 50
    · rw [if_pos h, if_neg (not_le.mpr (h.trans (by norm_num))),
        if_neg (not_le.mpr (h.trans (by norm_num))),
        if_neg (not_le.mpr h)]
      exact iff_of_true rfl rfl
    · rw [if_neg h]
      apply iff_of_false
      · split_ifs <;> decide
      · split_ifs with a b c
        · decide
        · decide
        · decide
        · exact absurd (not_lt.mp h) c
  · intro h
    rw [if_neg (not_lt.mpr (le_trans (by norm_num) h)),
      if_neg (not_lt.mpr (le_trans (by norm_num) h))]

/-- Witness for C9 at Percent_Achieved 30 and at 80. -/
theorem C9_witness :
    (risk_label (some 30) = "High Risk" ↔ perf_band (some 30) = "Poor")
    ∧ risk_label (some 80) = "Low Risk" :=
  ⟨(C9_risk_band_relation 30).1, (C9_risk_band_relation 80).2 (by norm_num)⟩

/-- C10: the Expected_Band mapping is total over all quintile values, not
only 1 to 5: any quintile at least 4 yields Excellent, quintile exactly 3
yields Good, and every other value, including 0, negatives, non-integers
and a missing or NaN quintile, yields Average. -/
theorem C10_expected_band_total (q : Option ℚ) :
    (∀ x : ℚ, q = some x → 4 ≤ x → expected_band q = "Excellent")
    ∧ (q = some 3 → expected_band q = "Good")
    ∧ (∀ x : ℚ, q = some x → x < 4 → x ≠ 3 → expected_band q = "Average")
    ∧ (q = none → expected_band q = "Average") := by
  refine ⟨?_, ?_, ?_, ?_⟩
  · rintro x rfl h
    simp only [expected_band]
    rw [if_pos h]
  · rintro rfl
    simp only [expected_band]
    norm_num
  · rintro x rfl h h3
    simp only [expected_band]
    rw [if_neg (not_le.mpr h), if_neg h3]
  · rintro rfl
    rfl

/-- Witness for C10 at quintile 5, 3, 1/2 and missing. -/
theorem C10_witness :
    expected_band (some 5) = "Excellent" ∧ expected_band (some 3) = "Good"
    ∧ expected_band (some (1/2)) = "Average"
    ∧ expected_band none = "Average" :=
  ⟨(C10_expected_band_total (some 5)).1 5 rfl (by norm_num),
    (C10_expected_band_total (some 3)).2.1 rfl,
    (C10_expected_band_total (some (1/2))).2.2.1 (1/2) rfl (by norm_num)
      (by norm_num),
    (C10_expected_band_total none).2.2.2 rfl⟩

/-- The efficiency column never holds NaN after fillna(0): a NaN from a
missing operand or from zero over zero is replaced by 0, and the only
other values are finite quotients and infinities. -/
theorem fillna0_odiv_ne_nan (a b : Option ℚ) :
    (odiv a b).fillna0 ≠ PVal.nan := by
  cases a with
  | none => simp [odiv, PVal.fillna0]
  | some x =>
    cases b with
    | none => simp [odiv, PVal.fillna0]
    | some y =>
      simp only [odiv]
      split_ifs <;> simp [PVal.fillna0]

/-- Multiplying a non-NaN value by a positive finite constant never
produces NaN. -/
theorem mul_fin_pos_ne_nan (v : PVal) (hv : v ≠ PVal.nan) (c : ℚ)
    (hc : 0 < c) : v.mul (PVal.fin c) ≠ PVal.nan := by
  cases v with
  | nan => exact absurd rfl hv
  | pinf => simp only [PVal.mul]; rw [if_pos hc]; simp
  | ninf => simp only [PVal.mul]; rw [if_pos hc]; simp
  | fin a => simp [PVal.mul]

/-- Adding a finite value on the left of a non-NaN value never produces
NaN. -/
theorem fin_add_ne_nan (a : ℚ) (w : PVal) (hw : w ≠ PVal.nan) :
    (PVal.fin a).add w ≠ PVal.nan := by
  cases w with
  | nan => exact absurd rfl hw
  | pinf => simp [PVal.add]
  | ninf => simp [PVal.add]
  | fin b => simp [PVal.add]

/-- Adding a finite value on the right of a non-NaN value never produces
NaN. -/
theorem add_fin_ne_nan (v : PVal) (hv : v ≠ PVal.nan) (c : ℚ) :
    v.add (PVal.fin c) ≠ PVal.nan := by
  cases v with
  | nan => exact absurd rfl hv
  | pinf => simp [PVal.add]
  | ninf => simp [PVal.add]
  | fin a => simp [PVal.add]

/-- numpy clip of a non-NaN value with finite ordered bounds is a finite
value inside the bounds. -/
theorem clip_shape (lo hi : ℚ) (hlh : lo ≤ hi) (v : PVal)
    (hv : v ≠ PVal.nan) :
    ∃ s : ℚ, v.clip lo hi = PVal.fin s ∧ lo ≤ s ∧ s ≤ hi := by
  cases v with
  | nan => exact absurd rfl hv
  | pinf => exact ⟨hi, rfl, hlh, le_refl hi⟩
  | ninf => exact ⟨lo, rfl, le_refl lo, hlh⟩
  | fin q =>
    exact ⟨min hi (max lo q), rfl,
      le_min hlh (le_max_left lo q), min_le_left hi _⟩

/-- C5: for records with finite numeric inputs (Percent_Achieved present,
all present cells finite by construction), Stability_Index is exactly
Efficiency_Score times 100 saturating-clamped into [0, 100] and
Projected_Pass_Rate_2026 is exactly Percent_Achieved plus 0.15 times
(Growth_Index minus 70) saturating-clamped into [30, 100]; both outputs
are finite values lying within those bounds. -/
theorem C5_clamped_indices (r : RawRecord) (p : ℚ)
    (h : r.Percent_Achieved = some p) :
    (score r).Stability_Index
        = ((score r).Efficiency_Score.mul (PVal.fin 100)).clip 0 100
    ∧ (score r).Projected_Pass_Rate_2026
        = ((PVal.fin p).add
            (((score r).Growth_Index.sub (PVal.fin 70)).mul
              (PVal.fin (3/20)))).clip 30 100
    ∧ (∃ s : ℚ, (score r).Stability_Index = PVal.fin s ∧ 0 ≤ s ∧ s ≤ 100)
    ∧ (∃ s : ℚ, (score r).Projected_Pass_Rate_2026 = PVal.fin s
        ∧ 30 ≤ s ∧ s ≤ 100) := by
  have heff : (odiv r.Total_Achieved r.Total_Wrote).fillna0 ≠ PVal.nan :=
    fillna0_odiv_ne_nan _ _
  have hgrow : (score r).Growth_Index ≠ PVal.nan := by
    have hg : (score r).Growth_Index
        = ((ofCell r.Percent_Achieved).mul (PVal.fin (3/5))).add
            ((((odiv r.Total_Achieved r.Total_Wrote).fillna0).mul
              (PVal.fin 100)).mul (PVal.fin (2/5))) := by
      simp only [score]
    rw [hg, h]
    simp only [ofCell]
    have h1 : (PVal.fin p).mul (PVal.fin (3/5)) = PVal.fin (p * (3/5)) := rfl
    rw [h1]
    exact fin_add_ne_nan _ _
      (mul_fin_pos_ne_nan _
        (mul_fin_pos_ne_nan _ heff 100 (by norm_num)) (2/5) (by norm_num))
  refine ⟨by simp only [score], by simp only [score, h, ofCell], ?_, ?_⟩
  · have hst : (score r).Stability_Index
        = (((odiv r.Total_Achieved r.Total_Wrote).fillna0).mul
            (PVal.fin 100)).clip 0 100 := by
      simp only [score]
    rw [hst]
    exact clip_shape 0 100 (by norm_num) _
      (mul_fin_pos_ne_nan _ heff 100 (by norm_num))
  · have hpr : (score r).Projected_Pass_Rate_2026
        = ((PVal.fin p).add
            (((score r).Growth_Index.sub (PVal.fin 70)).mul
              (PVal.fin (3/20)))).clip 30 100 := by
      simp only [score, h, ofCell]
    rw [hpr]
    refine clip_shape 30 100 (by norm_num) _ ?_
    refine fin_add_ne_nan _ _ ?_
    refine mul_fin_pos_ne_nan _ ?_ (3/20) (by norm_num)
    simp only [PVal.sub, PVal.neg]
    exact add_fin_ne_nan _ hgrow (-70)

/-- Row used to instantiate the clamping theorem. -/
def clampRow : RawRecord :=
  { School_Name := some "School Z"
    Quintile := some 2
    Total_Wrote := some 50
    Total_Achieved := some 40
    Percent_Achieved := some 80
    District := none
    Province := some "KwaZulu-Natal" }

/-- Witness for C5 on a concrete row. -/
theorem C5_witness :
    ∃ s : ℚ, (score clampRow).Projected_Pass_Rate_2026 = PVal.fin s
      ∧ 30 ≤ s ∧ s ≤ 100 :=
  (C5_clamped_indices clampRow 80 rfl).2.2.2

/-- C2 (amended): a row survives load_data exactly when it came from the
input with School_Name, Percent_Achieved and Province all present; a row
missing any of those three fields is excluded.  (The code does not drop
rows whose Quintile is missing.) -/
theorem C2_required_field_filter (rows : List RawRecord) (r : RawRecord) :
    (r ∈ load_data rows →
      r ∈ rows ∧ r.School_Name.isSome = true
        ∧ r.Percent_Achieved.isSome = true ∧ r.Province.isSome = true)
    ∧ ((r.School_Name = none ∨ r.Percent_Achieved = none
        ∨ r.Province = none) → r ∉ load_data rows) := by
  constructor
  · intro hmem
    rw [load_data, List.mem_filter] at hmem
    obtain ⟨h1, h2⟩ := hmem
    simp only [Bool.and_eq_true] at h2
    exact ⟨h1, h2.1.1, h2.1.2, h2.2⟩
  · intro hmiss hmem
    rw [load_data, List.mem_filter] at hmem
    obtain ⟨-, h2⟩ := hmem
    simp only [Bool.and_eq_true] at h2
    rcases hmiss with hm | hm | hm <;> rw [hm] at h2 <;> simp at h2

/-- Input row with the (per spec) required field Quintile missing but
School_Name, Percent_Achieved and Province present. -/
def missingQuintileRow : RawRecord :=
  { School_Name := some "School X"
    Quintile := none
    Total_Wrote := some 100
    Total_Achieved := some 60
    Percent_Achieved := some 60
    District := some "District X"
    Province := some "Gauteng" }

/-- C2 counterexample: a record whose Quintile field is missing is NOT
excluded by load_data; it flows through the whole pipeline and receives
derived classifications (Expected_Band defaults to Average on the NaN
quintile), refuting the claim that every record missing a required field
is excluded before the core runs. -/
theorem C2_counterexample :
    missingQuintileRow.Quintile = none
    ∧ load_data [missingQuintileRow] = [missingQuintileRow]
    ∧ pipeline [missingQuintileRow] = [score missingQuintileRow]
    ∧ (score missingQuintileRow).Expected_Band = "Average"
    ∧ (score missingQuintileRow).Risk_Category = "Medium Risk"
    ∧ (score missingQuintileRow).Actual_Band = "Average" := by
  refine ⟨rfl, rfl, rfl, rfl, ?_, ?_⟩
  · show risk_label (some 60) = "Medium Risk"
    simp only [risk_label]
    norm_num
  · show perf_band (some 60) = "Average"
    simp only [perf_band]
    norm_num

/-- Input row with Total_Wrote equal to zero and Total_Achieved positive. -/
def divByZeroRow : RawRecord :=
  { School_Name := some "School Y"
    Quintile := some 3
    Total_Wrote := some 0
    Total_Achieved := some 5
    Percent_Achieved := some 80
    District := none
    Province := some "Limpopo" }

/-- C3 (code-bug evidence): with Total_Wrote = 0 and Total_Achieved = 5
the division at line 60 produces plus infinity, which fillna(0) at line
61 does not replace (it only replaces NaN), so Efficiency_Score is plus
infinity, not 0 and not inside [0, 1]. -/
theorem C3_division_by_zero_bug :
    (score divByZeroRow).Efficiency_Score = PVal.pinf
    ∧ PVal.pinf ≠ PVal.fin 0
    ∧ ∀ q : ℚ, (score divByZeroRow).Efficiency_Score ≠ PVal.fin q := by
  have he : (score divByZeroRow).Efficiency_Score = PVal.pinf := by
    show (odiv (some 5) (some 0)).fillna0 = PVal.pinf
    simp only [odiv]
    norm_num
    rfl
  exact ⟨he, by simp, fun q hq => by rw [he] at hq; exact PVal.noConfusion hq⟩

/-- C8: the core pipeline is a pure function of its input rows: two runs
on identical inputs produce identical scored outputs (there is no hidden
state, randomness or environment dependence in the embedded pipeline). -/
theorem C8_pipeline_deterministic (rows1 rows2 : List RawRecord)
    (h : rows1 = rows2) : pipeline rows1 = pipeline rows2 := by
  rw [h]

/-- Row used to instantiate the determinism theorem. -/
def rerunRow : RawRecord :=
  { School_Name := some "School W"
    Quintile := some 1
    Total_Wrote := some 30
    Total_Achieved := some 20
    Percent_Achieved := some 55
    District := none
    Province := some "Free State" }

/-- Witness for C8 on a concrete row list. -/
theorem C8_witness : pipeline [rerunRow] = pipeline [rerunRow] :=
  C8_pipeline_deterministic [rerunRow] [rerunRow] rfl

/-- Input row with the required field Province missing. -/
def missingProvinceRow : RawRecord :=
  { School_Name := some "School V"
    Quintile := some 4
    Total_Wrote := some 80
    Total_Achieved := some 70
    Percent_Achieved := some 88
    District := some "District V"
    Province := none }

/-- Witness for C2 on a concrete row with a missing Province. -/
theorem C2_witness : missingProvinceRow ∉ load_data [missingProvinceRow] :=
  (C2_required_field_filter [missingProvinceRow] missingProvinceRow).2
    (Or.inr (Or.inr rfl))
